import Mathlib

/-!
Verification of the WIZNET5K W5500 driver (`src/lib/wiznet5k.py`).

This file gives a shallow embedding of the driver's register/socket layer
and proves or refutes the specified properties of:

* `socket_write` (clipping, ring-buffer address arithmetic, TX pointer update),
* `socket_read` (EOF / would-block discrimination on an empty receive buffer),
* the `socket_num <= max_sockets` assertion guarding socket operations,
* `socket_close` / `socket_disconnect` / `_send_socket_cmd` (command-register polling),
* `_write_with_verification` (write-verify-retry),
* `get_socket` (first-CLOSED-slot scan),
* `socket_open` (legal-state precondition, ephemeral source-port allocation),
* `socket_connect` (link-down gate and the bus transactions it issues).

The chip itself is external hardware; it is modelled by explicit oracle data
(register values returned by successive reads, a register file for verified
writes, a fault schedule for dropped writes).  Python-level semantics that
matter are modelled explicitly: in particular `bytearray == int` is `False`
in Python, which is load-bearing for `socket_read`.
-/

namespace Wiznet5k

/-! ## Constants (wiznet5k.py lines 40-122) -/

def REG_MR : Nat := 0x0000
def REG_PHYCFGR : Nat := 0x002E

def REG_SNMR : Nat := 0x0000
def REG_SNCR : Nat := 0x0001
def REG_SNIR : Nat := 0x0002
def REG_SNSR : Nat := 0x0003
def REG_SNPORT : Nat := 0x0004
def REG_SNDIPR : Nat := 0x000C
def REG_SNDPORT : Nat := 0x0010
def REG_SNRX_RD : Nat := 0x0028
def REG_SNTX_WR : Nat := 0x0024

def SNSR_SOCK_CLOSED : Nat := 0x00
def SNSR_SOCK_INIT : Nat := 0x13
def SNSR_SOCK_LISTEN : Nat := 0x14
def SNSR_SOCK_ESTABLISHED : Nat := 0x17
def SNSR_SOCK_FIN_WAIT : Nat := 0x18
def SNSR_SOCK_CLOSING : Nat := 0x1A
def SNSR_SOCK_TIME_WAIT : Nat := 0x1B
def SNSR_SOCK_CLOSE_WAIT : Nat := 0x1C
def SNSR_SOCK_UDP : Nat := 0x22

def CMD_SOCK_OPEN : Nat := 0x01
def CMD_SOCK_LISTEN : Nat := 0x02
def CMD_SOCK_CONNECT : Nat := 0x04
def CMD_SOCK_DISCON : Nat := 0x08
def CMD_SOCK_CLOSE : Nat := 0x10
def CMD_SOCK_SEND : Nat := 0x20
def CMD_SOCK_RECV : Nat := 0x40

def SNIR_SEND_OK : Nat := 0x10

def SOCK_SIZE : Nat := 0x800

def SNMR_TCP : Nat := 0x21
def SNMR_UDP : Nat := 0x02

/-- Constant `W5200_W5500_MAX_SOCK_NUM = const(0x08)`; `WIZNET5K.max_sockets` returns this
value once the chip type has been detected as `"w5500"` (lines 246-251). -/
def W5200_W5500_MAX_SOCK_NUM : Nat := 0x08

def SOCKET_INVALID : Nat := 255

/-! ## Python value semantics

`socket_read` compares the result of `_read_snmr` (a `bytearray`) against a
tuple of `int` constants with the `in` operator.  Python tuple membership
tests with `==`, and `bytearray.__eq__(int)` is `NotImplemented` on both
sides, so the comparison falls back to identity and is always `False`.
`PyVal`/`pyEq`/`pyIn` embed exactly this semantics. -/

inductive PyVal where
  | int : Int → PyVal
  | bytes : List Nat → PyVal
deriving DecidableEq, Repr

def pyEq : PyVal → PyVal → Bool
  | .int a, .int b => a == b
  | .bytes a, .bytes b => a == b
  | _, _ => false

/-- Python `v in (t₁, ..., tₙ)`: membership via `==` on each element. -/
def pyIn (v : PyVal) (t : List PyVal) : Bool := t.any (pyEq v)

/-! ## socket_read (wiznet5k.py lines 902-941) -/

/-- Chip-side observations consumed by one `socket_read` call.

* `linkUp` — the PHY link bit (`link_status`, lines 318-324), asserted first.
* `rxSize` — the stabilised result of `_get_rx_rcv_size` (lines 1008-1016,
  the read-until-two-consecutive-reads-agree loop on `Sn_RX_RSR`).
* `snsr` — the value of the socket status register `Sn_SR`.  `socket_read`
  never reads it on the empty-buffer path; the field records the actual
  socket state so that claims about it can be stated.
* `snmr` — the value of the socket mode register `Sn_MR`, returned by
  `_read_snmr` (lines 1105-1106) as a 1-byte buffer.
* `snrxRd` — the value of the `Sn_RX_RD` read pointer (lines 1030-1033).
* `mem` — chip memory, for the payload read. -/
structure SockReadEnv where
  linkUp : Bool
  rxSize : Nat
  snsr : Nat
  snmr : Nat
  snrxRd : Nat
  mem : Nat → Nat

/-- Result of `socket_read`: the `(ret, resp)` pair returned by the Python
function, plus the value stored back into `Sn_RX_RD` when data was read. -/
structure SockReadOut where
  ret : Int
  resp : PyVal
  storedRxRd : Option Nat
deriving Repr

/-- Shallow embedding of `WIZNET5K.socket_read` (lines 902-941).

The two asserts come first.  If `_get_rx_rcv_size` reports 0, the code reads
`Sn_MR` (note: the *mode* register, via `_read_snmr`, not the status
register) and tests the resulting `bytearray` for membership in a tuple of
`int` status codes — this Python comparison is always `False` (see `pyIn`) —
then returns `(0, 0)` on the (unreachable) EOF branch and `(-1, -1)`
otherwise.  With data available it clamps to `length`, reads the payload at
the `Sn_RX_RD` pointer, stores the advanced pointer (each byte masked by the
`_write_snrx_rd` helper, lines 1036-1038) and issues `CMD_SOCK_RECV`.
When `rxSize > 0` but the clamp yields `ret = 0` (i.e. `length = 0`), the
Python code falls through to `return ret, resp` with `resp` unbound, a
`NameError`; that path is the final `.error`. -/
def socket_read (socket_num length : Nat) (env : SockReadEnv) :
    Except String SockReadOut :=
  if ¬ env.linkUp then .error "Ethernet cable disconnected!"
  else if ¬ (socket_num ≤ W5200_W5500_MAX_SOCK_NUM) then
    .error "Provided socket exceeds max_sockets."
  else
    if env.rxSize = 0 then
      let status : PyVal := .bytes [env.snmr]
      if pyIn status [.int (Int.ofNat SNSR_SOCK_LISTEN),
                      .int (Int.ofNat SNSR_SOCK_CLOSED),
                      .int (Int.ofNat SNSR_SOCK_CLOSE_WAIT)] then
        .ok { ret := 0, resp := .int 0, storedRxRd := none }
      else
        .ok { ret := -1, resp := .int (-1), storedRxRd := none }
    else
      let ret := if env.rxSize > length then length else env.rxSize
      if ret > 0 then
        let ptr := env.snrxRd
        let resp := (List.range ret).map (fun i => env.mem (ptr + i))
        let ptr1 := ptr + ret
        let stored := ((ptr1 >>> 8 &&& 0xFF) <<< 8) + (ptr1 &&& 0xFF)
        .ok { ret := Int.ofNat ret, resp := .bytes resp, storedRxRd := some stored }
      else
        .error "NameError: resp"

/-! ## socket_write (wiznet5k.py lines 957-1003) -/

/-- One observation per iteration of the TX free-size wait loop
(lines 971-976): the re-read free size, the status byte from
`socket_status`, and whether the `timeout and time.time() - stamp > timeout`
condition held at that iteration (real time is external input). -/
structure TxWaitObs where
  freeSize : Nat
  status : Nat
  timedOut : Bool
deriving Repr

/-- The `while free_size < ret` loop of `socket_write` (lines 971-976).
Returns the value `ret` holds after the loop; `none` when the observation
list is exhausted with the loop still running. -/
def txWait (ret freeSize : Nat) : List TxWaitObs → Option Nat
  | [] => if freeSize < ret then none else some ret
  | o :: rest =>
    if freeSize < ret then
      if (o.status ≠ SNSR_SOCK_ESTABLISHED ∧ o.status ≠ SNSR_SOCK_CLOSE_WAIT)
          ∨ o.timedOut then
        some 0
      else
        txWait ret o.freeSize rest
    else some ret

/-- One observation per iteration of the post-SEND interrupt-poll loop
(lines 989-1001): the `Sn_IR` byte, the status byte, and the timeout flag. -/
structure SendObs where
  snir : Nat
  status : Nat
  timedOut : Bool
deriving Repr

/-- The `while (Sn_IR & SNIR_SEND_OK) != SNIR_SEND_OK` loop (lines 989-1001).
`some true` — send-complete observed (the code then writes `SNIR_SEND_OK`
to `Sn_IR` and returns `ret`); `some false` — the early `return 0` path;
`none` — observations exhausted while still polling. -/
def sendWait : List SendObs → Option Bool
  | [] => none
  | o :: rest =>
    if o.snir &&& SNIR_SEND_OK ≠ SNIR_SEND_OK then
      if (o.status = SNSR_SOCK_CLOSED ∨ o.status = SNSR_SOCK_TIME_WAIT ∨
          o.status = SNSR_SOCK_FIN_WAIT ∨ o.status = SNSR_SOCK_CLOSE_WAIT ∨
          o.status = SNSR_SOCK_CLOSING) ∨ o.timedOut then
        some false
      else sendWait rest
    else some true

/-- A single bus write transaction as issued by `WIZNET5K.write`:
destination address, control byte, data bytes. -/
structure WriteTxn where
  addr : Nat
  ctrl : Nat
  data : List Nat
deriving DecidableEq, Repr

/-- Chip-side observations consumed by one `socket_write` call. -/
structure SockWriteEnv where
  linkUp : Bool
  firstFree : Nat
  waitObs : List TxWaitObs
  ptr : Nat
  sendObs : List SendObs

/-- Result of `socket_write`: the returned byte count, the single data
transaction `self.write(dst_addr, cntl_byte, buffer)` (line 985), and the
value stored into `Sn_TX_WR` (each byte masked by `_write_sntx_wr`,
lines 1041-1043). -/
structure SockWriteOut where
  ret : Nat
  txn : WriteTxn
  storedPtr : Nat
deriving DecidableEq, Repr

/-- Shallow embedding of `WIZNET5K.socket_write` (lines 957-1003).

After the link and socket-number asserts, `ret` is clipped to `SOCK_SIZE`
(lines 964-967) and the free-size wait loop runs (`txWait`).  Note that the
code then unconditionally proceeds — even when the loop set `ret = 0` —
to read `Sn_TX_WR`, compute `offset = ptr & 0x07FF` and
`dst_addr = offset + (socket_num * 2048 + 0x8000)` (lines 977-980), store
`(ptr + len(buffer)) & 0xFFFF` into `Sn_TX_WR` (line 982), and write the
*entire* `buffer` in one transaction (line 985): both the pointer advance
and the data transaction use `len(buffer)`, not the clipped `ret`.
Then `CMD_SOCK_SEND` is issued and the interrupt poll (`sendWait`) decides
between returning `ret` and the early `return 0`. -/
def socket_write (socket_num : Nat) (buffer : List Nat) (env : SockWriteEnv) :
    Except String (Option SockWriteOut) :=
  if ¬ env.linkUp then .error "Ethernet cable disconnected!"
  else if ¬ (socket_num ≤ W5200_W5500_MAX_SOCK_NUM) then
    .error "Provided socket exceeds max_sockets."
  else
    let ret := if buffer.length > SOCK_SIZE then SOCK_SIZE else buffer.length
    match txWait ret env.firstFree env.waitObs with
    | none => .ok none
    | some ret1 =>
      let ptr := env.ptr
      let offset := ptr &&& 0x07FF
      let dst_addr := offset + (socket_num * 2048 + 0x8000)
      let ptr1 := (ptr + buffer.length) &&& 0xFFFF
      let cntl_byte := 0x14 + (socket_num <<< 5)
      match sendWait env.sendObs with
      | none => .ok none
      | some true =>
        .ok (some { ret := ret1, txn := ⟨dst_addr, cntl_byte, buffer⟩, storedPtr := ptr1 })
      | some false =>
        .ok (some { ret := 0, txn := ⟨dst_addr, cntl_byte, buffer⟩, storedPtr := ptr1 })

/-- The `Sn_TX_WR` update across a sequence of `socket_write` calls with the
given payload lengths: each call stores `(ptr + len(buffer)) & 0xFFFF`
(line 982). -/
def ptrAfterWrites (p0 : Nat) (lens : List Nat) : Nat :=
  lens.foldl (fun p l => (p + l) &&& 0xFFFF) p0

/-! ## socket_close / socket_disconnect / _send_socket_cmd
(wiznet5k.py lines 784-788 and 886-899)

Chip model for the socket command register `Sn_CR`: the chip accepts a
written command and clears the register to 0 on its own once the command
has been processed.  `clearsIn` counts how many more driver read-polls
happen before the chip has cleared the register (the chip works
asynchronously; a poll that arrives after processing sees 0). -/

structure CmdChip where
  sncr : Nat
  clearsIn : Nat
deriving DecidableEq, Repr

/-- Embedding of `_write_sncr` (lines 1097-1098): the driver stores a command byte. -/
def writeSncr (c : CmdChip) (v : Nat) : CmdChip := { c with sncr := v }

/-- One `_read_sncr` poll (lines 1101-1102): returns the current `Sn_CR`
value; afterwards the chip either clears the register (processing done) or
moves one step closer to doing so. -/
def readSncr (c : CmdChip) : Nat × CmdChip :=
  (c.sncr,
    if c.clearsIn = 0 then { c with sncr := 0 }
    else { c with clearsIn := c.clearsIn - 1 })

/-- Embedding of `WIZNET5K.socket_close` (lines 886-891): writes `CMD_SOCK_CLOSE` to
`Sn_CR`, then performs a single `_read_sncr` whose result is discarded, and
returns.  Returns the chip state at the moment the function returns. -/
def socket_close (c : CmdChip) : CmdChip :=
  let c1 := writeSncr c CMD_SOCK_CLOSE
  (readSncr c1).2

/-- Embedding of `WIZNET5K.socket_disconnect` (lines 894-899): writes `CMD_SOCK_DISCON`
to `Sn_CR`, then performs a single `_read_sncr` whose result is discarded. -/
def socket_disconnect (c : CmdChip) : CmdChip :=
  let c1 := writeSncr c CMD_SOCK_DISCON
  (readSncr c1).2

/-- The polling loop of `_send_socket_cmd` (lines 784-788):
`while self._read_sncr(socket) != b"\x00"`.  Structural fuel bounds the
number of polls; `none` means the loop was still running. -/
def sendSocketCmdLoop : Nat → CmdChip → Option CmdChip
  | 0, _ => none
  | fuel + 1, c =>
    let r := readSncr c
    if r.1 ≠ 0 then sendSocketCmdLoop fuel r.2 else some r.2

/-- Embedding of `WIZNET5K._send_socket_cmd` (lines 784-788): write the command, then
poll `Sn_CR` until it reads back 0. -/
def sendSocketCmd (fuel : Nat) (c : CmdChip) (cmd : Nat) : Option CmdChip :=
  sendSocketCmdLoop fuel (writeSncr c cmd)

/-! ## _write_with_verification (wiznet5k.py lines 361-407)

Chip model for verified register writes: a register file plus a fault
schedule.  Each write transaction consumes one entry of the schedule;
`true` means the transaction was corrupted and the register kept its old
value (the failure mode the retry loop exists for).  Once the schedule is
exhausted, writes always land.  Reads return the stored value; the
verification read `self.read(addr, 0x00)[0]` (line 387) targets the same
common-register block the `set_ifconfig` call sites write with control
byte `0x04` (same block, opposite direction bit). -/

structure RegChip where
  regs : Nat → Nat
  faults : List Bool

/-- One write transaction against the register file, consuming one entry of
the fault schedule. -/
def chipWrite (c : RegChip) (addr data : Nat) : RegChip :=
  match c.faults with
  | [] => { c with regs := Function.update c.regs addr data }
  | f :: rest =>
    { regs := if f then c.regs else Function.update c.regs addr data,
      faults := rest }

/-- One read transaction against the register file. -/
def chipRead (c : RegChip) (addr : Nat) : Nat := c.regs addr

/-- Counters and final state produced by `_write_with_verification`. -/
structure WvResult where
  verified : Bool
  chip : RegChip
  writes : Nat
  reads : Nat

/-- The `while not verified and retry_count < max_retries` loop of
`_write_with_verification` (lines 372-407).  Each iteration writes the data
(line 377); on every attempt except the last (`retry_count <
max_retries - 1`, line 386) it reads the register back and compares
(lines 387-392): a match sets `verified` and breaks, a mismatch increments
`retry_count` and retries; the last attempt skips verification, increments
`retry_count` and thereby exits the loop with `verified = False`.
`writes`/`reads` count the write and verification-read transactions
performed.  The structural `fuel` is instantiated with `maxRetries` by
`writeWithVerification`, which suffices because every iteration that does
not break increments `retryCount`. -/
def wvLoop (addr data maxRetries : Nat) :
    Nat → Nat → RegChip → Nat → Nat → WvResult
  | 0, _, c, w, r => { verified := false, chip := c, writes := w, reads := r }
  | fuel + 1, retryCount, c, w, r =>
    if retryCount < maxRetries then
      let c1 := chipWrite c addr data
      if retryCount < maxRetries - 1 then
        let readValue := chipRead c1 addr
        if readValue = data then
          { verified := true, chip := c1, writes := w + 1, reads := r + 1 }
        else
          wvLoop addr data maxRetries fuel (retryCount + 1) c1 (w + 1) (r + 1)
      else
        { verified := false, chip := c1, writes := w + 1, reads := r }
    else
      { verified := false, chip := c, writes := w, reads := r }

/-- Embedding of `WIZNET5K._write_with_verification` (lines 361-407), entered with
`retry_count = 0` and `verified = False`. -/
def writeWithVerification (addr data maxRetries : Nat) (c : RegChip) : WvResult :=
  wvLoop addr data maxRetries maxRetries 0 c 0 0

/-! ## get_socket (wiznet5k.py lines 791-805) -/

/-- The `for _sock in range(self.max_sockets)` scan of `get_socket`
(lines 797-801): return the first index whose `socket_status` byte is
`SNSR_SOCK_CLOSED`, else fall through with `sock = SOCKET_INVALID`.
`status` gives the byte each `self.socket_status(_sock)[0]` read returns. -/
def getSocketGo (status : Nat → Nat) (i : Nat) : Nat → Nat
  | 0 => SOCKET_INVALID
  | fuel + 1 =>
    if status i = SNSR_SOCK_CLOSED then i else getSocketGo status (i + 1) fuel

/-- Embedding of `WIZNET5K.get_socket` (lines 791-805). -/
def get_socket (status : Nat → Nat) : Nat :=
  getSocketGo status 0 W5200_W5500_MAX_SOCK_NUM

/-! ## socket_open (wiznet5k.py lines 846-883) -/

/-- A bus transaction as seen at the socket-register layer: a read of a
register, or a write of a value to a register.  Socket-register addresses
are the per-socket offsets (`_read_socket`/`_write_socket` fold in the
channel base and control byte, lines 1109-1119). -/
inductive BusOp where
  | rd : Nat → BusOp
  | wr : Nat → Nat → BusOp
deriving DecidableEq, Repr

/-- The ephemeral source-port draw of `socket_open` (lines 872-874):
`s_port = randint(49152, 65535)`, re-drawn `while s_port in SRC_PORTS`.
`rng` is the stream of successive `randint` results; the result is the
first draw not already in the table (`none` when the stream is exhausted
with every draw colliding, where the Python loop would keep drawing). -/
def pickEphemeral (table : List Nat) : List Nat → Option Nat
  | [] => none
  | p :: rest => if p ∈ table then pickEphemeral table rest else some p

/-- Chip-side observations consumed by one `socket_open` call.

* `linkUp` — the PHY link bit tested by `assert self.link_status` (line 850).
* `snsr` — the `Sn_SR` value read at line 853, before any write.
* `snsrAfterOpen` — the `Sn_SR` value read back by the final assert
  (lines 880-881), after the OPEN command.
* `srcPortAttr` — the driver attribute `self.src_port` (set by
  `socket_listen`, 0 otherwise).
* `srcPorts` — the module-global `SRC_PORTS` table (line 122), one entry
  per socket slot.
* `rng` — the `randint(49152, 65535)` stream. -/
structure OpenEnv where
  linkUp : Bool
  snsr : Nat
  snsrAfterOpen : Nat
  srcPortAttr : Nat
  srcPorts : List Nat
  rng : List Nat
deriving DecidableEq, Repr

/-- Result of `socket_open`: the Python return value (0 opened, 1 illegal
state), the `SRC_PORTS` table after the call, and the socket-register
transactions performed (the `PHYCFGR` link read first). -/
structure OpenOut where
  res : Nat
  srcPorts : List Nat
  ops : List BusOp
deriving DecidableEq, Repr

/-- The tail of `socket_open` (lines 877-882): issue `CMD_SOCK_OPEN`, one
`_read_sncr` (result discarded), then
`assert (snsr == 0x13 or snsr == 0x22)` — the short-circuit `or` reads
`Sn_SR` once when the first read gives `0x13` and twice otherwise — and
`return 0`.  A failed assert is the `.error`. -/
def socketOpenFinish (table : List Nat) (ops : List BusOp) (env : OpenEnv) :
    Except String (Option OpenOut) :=
  let ops3 := ops ++ [.wr REG_SNCR CMD_SOCK_OPEN, .rd REG_SNCR]
  if env.snsrAfterOpen = 0x13 then
    .ok (some { res := 0, srcPorts := table, ops := ops3 ++ [.rd REG_SNSR] })
  else if env.snsrAfterOpen = 0x22 then
    .ok (some { res := 0, srcPorts := table,
                ops := ops3 ++ [.rd REG_SNSR, .rd REG_SNSR] })
  else .error "Could not open socket in TCP or UDP mode."

/-- Shallow embedding of `WIZNET5K.socket_open` (lines 846-883).

After the link assert, `Sn_SR` is read; only when it is one of
`{CLOSED, TIME_WAIT, FIN_WAIT, CLOSE_WAIT, CLOSING, UDP, LISTEN}` does the
call proceed to write the mode register, clear interrupts, program the
source port (the caller-specified `self.src_port` when positive, otherwise
a fresh ephemeral port recorded by `SRC_PORTS[socket_num] = s_port`,
line 876 — an in-place overwrite of that slot's entry), issue
`CMD_SOCK_OPEN` and return 0.  Any other status returns 1 with no write
performed and the table untouched.  The high port byte is written as
`port >> 8` and the low one as `port & 0xFF` (`_write_sock_port`,
lines 1091-1094). -/
def socket_open (socket_num conn_mode : Nat) (env : OpenEnv) :
    Except String (Option OpenOut) :=
  if ¬ env.linkUp then .error "Ethernet cable disconnected!"
  else
    let ops0 : List BusOp := [.rd REG_PHYCFGR, .rd REG_SNSR]
    let status := env.snsr
    if status = SNSR_SOCK_CLOSED ∨ status = SNSR_SOCK_TIME_WAIT ∨
        status = SNSR_SOCK_FIN_WAIT ∨ status = SNSR_SOCK_CLOSE_WAIT ∨
        status = SNSR_SOCK_CLOSING ∨ status = SNSR_SOCK_UDP ∨
        status = SNSR_SOCK_LISTEN then
      let ops1 := ops0 ++ [.wr REG_SNMR conn_mode, .wr REG_SNIR 0xFF]
      if env.srcPortAttr > 0 then
        let ops2 := ops1 ++ [.wr REG_SNPORT (env.srcPortAttr >>> 8),
                             .wr (REG_SNPORT + 1) (env.srcPortAttr &&& 0xFF)]
        socketOpenFinish env.srcPorts ops2 env
      else
        match pickEphemeral env.srcPorts env.rng with
        | none => .ok none
        | some s_port =>
          let ops2 := ops1 ++ [.wr REG_SNPORT (s_port >>> 8),
                               .wr (REG_SNPORT + 1) (s_port &&& 0xFF)]
          socketOpenFinish (env.srcPorts.set socket_num s_port) ops2 env
    else .ok (some { res := 1, srcPorts := env.srcPorts, ops := ops0 })

/-! ## socket_connect (wiznet5k.py lines 754-781) -/

/-- The `while self._read_sncr(socket) != b"\x00"` poll of
`_send_socket_cmd` as it runs inside `socket_connect`, against the oracle
list of successive `Sn_CR` read values; returns the read transactions
performed, `none` when the list is exhausted while still polling. -/
def sncrClearWait : List Nat → Option (List BusOp)
  | [] => none
  | v :: rest =>
    if v ≠ 0 then (sncrClearWait rest).map (fun l => BusOp.rd REG_SNCR :: l)
    else some [BusOp.rd REG_SNCR]

/-- The TCP establishment loop of `socket_connect` (lines 772-778): the
loop condition reads `Sn_SR`; a non-ESTABLISHED value makes the body read
`Sn_SR` a second time and raise on `SNSR_SOCK_CLOSED`, otherwise the loop
repeats.  Output: the outcome plus the `Sn_SR` read transactions. -/
def connectEstWait : List Nat → Option (Except String Unit × List BusOp)
  | [] => none
  | s :: rest =>
    if s ≠ SNSR_SOCK_ESTABLISHED then
      match rest with
      | [] => none
      | s2 :: rest2 =>
        if s2 = SNSR_SOCK_CLOSED then
          some (.error "Failed to establish connection.",
                [BusOp.rd REG_SNSR, BusOp.rd REG_SNSR])
        else
          (connectEstWait rest2).map fun r =>
            (r.1, BusOp.rd REG_SNSR :: BusOp.rd REG_SNSR :: r.2)
    else some (.ok (), [BusOp.rd REG_SNSR])

/-- Chip-side observations consumed by one `socket_connect` call. -/
structure ConnectEnv where
  phycfgr : Nat
  openEnv : OpenEnv
  sncrPolls : List Nat
  estSnsr : List Nat
deriving DecidableEq, Repr

/-- Result of `socket_connect`: the Python return value (always `1` on the
normal exit, line 781) and the reset of the global
`UDP_SOCK["bytes_remaining"]` cache performed in UDP mode (line 780). -/
structure ConnectOut where
  res : Nat
  udpBytesRemaining : Option Nat
deriving DecidableEq, Repr

/-- Shallow embedding of `WIZNET5K.socket_connect` (lines 754-781),
paired with the log of bus transactions it issues.

The very first statement is `assert self.link_status` (line 759):
evaluating `link_status` (lines 318-324) performs one bus read of the
`PHYCFGR` register and tests its bit 0.  When the link is down the call
aborts there, having issued exactly that one transaction.  Otherwise the
code opens the socket (`socket_open`, which re-reads `PHYCFGR` for its own
link assert), raises when the open reported 1, programs the destination IP
and port registers, issues `CMD_SOCK_CONNECT` through `_send_socket_cmd`,
and for TCP polls `Sn_SR` until ESTABLISHED (raising if CLOSED appears);
for UDP it resets the datagram cache.  Transactions of a call aborted by a
raised assert/`RuntimeError` inside a callee are not re-logged beyond the
callee boundary. -/
def socket_connect (socket_num : Nat) (dest : List Nat) (port conn_mode : Nat)
    (env : ConnectEnv) : Except String (Option ConnectOut) × List BusOp :=
  let opsLink : List BusOp := [.rd REG_PHYCFGR]
  if env.phycfgr &&& 0x01 = 0 then
    (.error "Ethernet cable disconnected!", opsLink)
  else
    match socket_open socket_num conn_mode env.openEnv with
    | .error e => (.error e, opsLink)
    | .ok none => (.ok none, opsLink)
    | .ok (some o) =>
      if o.res = 1 then
        (.error "Failed to initalize a connection with the socket.",
         opsLink ++ o.ops)
      else
        let opsDest := (List.range 4).map
          (fun i => BusOp.wr (REG_SNDIPR + i) (dest.getD i 0))
        let opsPort := [BusOp.wr REG_SNDPORT (port >>> 8),
                        BusOp.wr (REG_SNDPORT + 1) (port &&& 0xFF)]
        let ops1 := opsLink ++ o.ops ++ opsDest ++ opsPort ++
          [BusOp.wr REG_SNCR CMD_SOCK_CONNECT]
        match sncrClearWait env.sncrPolls with
        | none => (.ok none, ops1)
        | some clearOps =>
          let ops2 := ops1 ++ clearOps
          if conn_mode = SNMR_TCP then
            match connectEstWait env.estSnsr with
            | none => (.ok none, ops2)
            | some (.error e, l) => (.error e, ops2 ++ l)
            | some (.ok _, l) =>
              (.ok (some { res := 1, udpBytesRemaining := none }), ops2 ++ l)
          else if conn_mode = SNMR_UDP then
            (.ok (some { res := 1, udpBytesRemaining := some 0 }), ops2)
          else
            (.ok (some { res := 1, udpBytesRemaining := none }), ops2)

/-! ## Concrete chip environments used to evaluate the model -/

/-- A link-up chip ready to accept a 2048-byte transfer on slot 0 with
`Sn_TX_WR = 0`; the send-complete interrupt fires immediately. -/
def envC1 : SockWriteEnv :=
  { linkUp := true, firstFree := 2048, waitObs := [], ptr := 0,
    sendObs := [{ snir := 0x10, status := 0x17, timedOut := false }] }

/-- A link-up chip whose socket sits in `CLOSE_WAIT` (`Sn_SR = 0x1C`) with
TCP mode programmed (`Sn_MR = 0x21`) and an empty receive buffer. -/
def envC2 : SockReadEnv :=
  { linkUp := true, rxSize := 0, snsr := SNSR_SOCK_CLOSE_WAIT, snmr := SNMR_TCP,
    snrxRd := 0, mem := fun _ => 0 }

/-- A link-up chip with an established, empty socket, for `socket_read`. -/
def envC3r : SockReadEnv :=
  { linkUp := true, rxSize := 0, snsr := SNSR_SOCK_ESTABLISHED, snmr := SNMR_TCP,
    snrxRd := 0, mem := fun _ => 0 }

/-- A link-up chip with one free TX byte and an immediate send-complete. -/
def envC3w : SockWriteEnv :=
  { linkUp := true, firstFree := 1, waitObs := [], ptr := 0,
    sendObs := [{ snir := 0x10, status := 0x17, timedOut := false }] }

/-- An all-registers-zero, fault-free register file. -/
def regChip0 : RegChip := { regs := fun _ => 0, faults := [] }

/-- Slot statuses where the two lowest slots are busy and slot 2 is the
first `CLOSED` one. -/
def statusW : Nat → Nat :=
  fun i => if i < 2 then SNSR_SOCK_ESTABLISHED else SNSR_SOCK_CLOSED

/-- A link-up chip with `Sn_TX_WR = 5000`, ready for a 3-byte transfer. -/
def envC7 : SockWriteEnv :=
  { linkUp := true, firstFree := 3, waitObs := [], ptr := 5000,
    sendObs := [{ snir := 0x10, status := 0x17, timedOut := false }] }

/-- A link-up chip whose socket is `ESTABLISHED`, for `socket_open`. -/
def envC8 : OpenEnv :=
  { linkUp := true, snsr := SNSR_SOCK_ESTABLISHED, snsrAfterOpen := 0x13,
    srcPortAttr := 0, srcPorts := List.replicate 8 0, rng := [50000] }

/-- A link-up chip with a `CLOSED` slot and an empty port table; the RNG
draws 50000 and the OPEN command lands in `SOCK_INIT` (0x13). -/
def envC10a : OpenEnv :=
  { linkUp := true, snsr := SNSR_SOCK_CLOSED, snsrAfterOpen := 0x13,
    srcPortAttr := 0, srcPorts := List.replicate 8 0, rng := [50000] }

/-- The same chip after the first open/close cycle of slot 0 (the table
now holds 50000 for slot 0); the RNG draws 50001. -/
def envC10b : OpenEnv :=
  { envC10a with srcPorts := [50000, 0, 0, 0, 0, 0, 0, 0], rng := [50001] }

/-- The same chip one cycle later (slot 0 entry now 50001); the RNG draws
50000 again. -/
def envC10c : OpenEnv :=
  { envC10a with srcPorts := [50001, 0, 0, 0, 0, 0, 0, 0], rng := [50000] }

/-- A chip whose PHY reports link down (`PHYCFGR` bit 0 clear).  The
`openEnv`/poll fields are never consumed on the link-down path. -/
def envC9 : ConnectEnv :=
  { phycfgr := 0,
    openEnv := { linkUp := false, snsr := 0, snsrAfterOpen := 0,
                 srcPortAttr := 0, srcPorts := List.replicate 8 0, rng := [] },
    sncrPolls := [], estSnsr := [] }

/-- Another link-down chip (`PHYCFGR = 0xB8`: 100 Mbit capabilities
advertised, bit 0 clear). -/
def envC9w : ConnectEnv := { envC9 with phycfgr := 0xB8 }

/-- The outcome of `socket_open 0 SNMR_TCP envC10a`: slot 0 opened with
ephemeral port 50000 recorded in the table. -/
def outC10 : OpenOut :=
  { res := 0, srcPorts := [50000, 0, 0, 0, 0, 0, 0, 0],
    ops := [.rd REG_PHYCFGR, .rd REG_SNSR, .wr REG_SNMR SNMR_TCP, .wr REG_SNIR 0xFF,
            .wr REG_SNPORT 195, .wr (REG_SNPORT + 1) 80, .wr REG_SNCR CMD_SOCK_OPEN,
            .rd REG_SNCR, .rd REG_SNSR] }

/-! ## Arithmetic helpers -/

/-- The mask in `offset = ptr & 0x07FF` (line 979) is reduction modulo the
2048-byte socket buffer size. -/
theorem and_7ff_eq_mod (x : Nat) : x &&& 0x07FF = x % 2048 := by
  have h := Nat.and_pow_two_sub_one_eq_mod x 11
  norm_num at h
  exact h

/-- The mask in `ptr = (ptr + len(buffer)) & 0xFFFF` (line 982) is
reduction modulo the 16-bit pointer width. -/
theorem and_ffff_eq_mod (x : Nat) : x &&& 0xFFFF = x % 65536 := by
  have h := Nat.and_pow_two_sub_one_eq_mod x 16
  norm_num at h
  exact h

/-! ## C1 -/

/-- C1: refuted on the code.  `socket_write` on slot 0 with a 2049-byte
payload and `Sn_TX_WR = 0` returns the clipped count 2048, but its single
data transaction carries all 2049 payload bytes and the stored TX write
pointer is 2049 — the advance is `len(buffer)`, not the clipped length.
The claim says at most 2048 bytes are written and the pointer advances by
exactly the clipped length. -/
theorem c1_socket_write_writes_unclipped_payload :
    socket_write 0 (List.replicate 2049 0xAB) envC1 =
      .ok (some { ret := 2048,
                  txn := { addr := (0 &&& 0x07FF) + (0 * 2048 + 0x8000),
                           ctrl := 0x14 + (0 <<< 5),
                           data := List.replicate 2049 0xAB },
                  storedPtr := 2049 }) ∧
    (List.replicate 2049 0xAB).length = 2049 ∧ ¬ (2049 ≤ 2048) := by
  have hlen : (List.replicate 2049 0xAB).length = 2049 := by
    simp only [List.length_replicate]
  refine ⟨?_, hlen, by decide⟩
  generalize hbuf : List.replicate 2049 0xAB = buf at hlen ⊢
  simp [socket_write, hlen, envC1, txWait, sendWait, SOCK_SIZE,
    SNIR_SEND_OK, W5200_W5500_MAX_SOCK_NUM]
  decide

/-! ## C2 -/

/-- C2: refuted on the code.  On a socket whose status register `Sn_SR`
reads `CLOSE_WAIT` (0x1C) with zero received bytes, `socket_read` returns
-1 ("would block"), not the claimed 0 (EOF): the code reads the *mode*
register via `_read_snmr` instead of the status register, and compares the
resulting bytearray against `int` status codes, a Python comparison that is
always `False`, so the EOF branch is unreachable. -/
theorem c2_socket_read_close_wait_returns_minus_one :
    envC2.snsr = SNSR_SOCK_CLOSE_WAIT ∧ envC2.rxSize = 0 ∧
    socket_read 0 2048 envC2 =
      .ok { ret := -1, resp := .int (-1), storedRxRd := none } := by
  exact ⟨rfl, rfl, rfl⟩

/-! ## C3 -/

/-- C3: refuted on the code.  The guard in `socket_write`, `socket_read`
and `socket_available` is `assert socket_num <= self.max_sockets`, so the
invalid slot index 8 (= `max_sockets`; valid slots are 0..7) passes the
assertion and the operation proceeds to register access, while 9 is
rejected.  The claim says any index not strictly below `max_sockets` is
signaled as a programming error before any register access. -/
theorem c3_slot_eight_accepted :
    socket_write 8 [0xAA] envC3w =
      .ok (some { ret := 1,
                  txn := { addr := (0 &&& 0x07FF) + (8 * 2048 + 0x8000),
                           ctrl := 0x14 + (8 <<< 5), data := [0xAA] },
                  storedPtr := 1 }) ∧
    socket_read 8 1 envC3r =
      .ok { ret := -1, resp := .int (-1), storedRxRd := none } ∧
    socket_write 9 [0xAA] envC3w = .error "Provided socket exceeds max_sockets." := by
  exact ⟨rfl, rfl, rfl⟩

/-! ## C4 -/

/-- C4: refuted as stated.  With a chip that has not yet processed the
command (three more polls until `Sn_CR` self-clears), `socket_close` and
`socket_disconnect` return while the command register still holds the
nonzero command byte: they perform a single read of `Sn_CR` and return
regardless of its value, instead of polling until it reads 0. -/
theorem c4_counterexample :
    (socket_close { sncr := 0, clearsIn := 3 }).sncr = CMD_SOCK_CLOSE ∧
    (socket_disconnect { sncr := 0, clearsIn := 3 }).sncr = CMD_SOCK_DISCON ∧
    CMD_SOCK_CLOSE ≠ 0 ∧ CMD_SOCK_DISCON ≠ 0 := by
  decide

/-- If the `_send_socket_cmd` polling loop returns, the last `Sn_CR` read
was 0, so the register is clear at return. -/
theorem sendSocketCmdLoop_clears :
    ∀ (fuel : Nat) (c c2 : CmdChip),
      sendSocketCmdLoop fuel c = some c2 → c2.sncr = 0 := by
  intro fuel
  induction fuel with
  | zero =>
    intro c c2 h
    exact Option.noConfusion h
  | succ n ih =>
    intro c c2 h
    simp only [sendSocketCmdLoop] at h
    by_cases hv : (readSncr c).1 ≠ 0
    · rw [if_pos hv] at h
      exact ih _ _ h
    · rw [if_neg hv] at h
      push_neg at hv
      cases h
      simp only [readSncr] at hv ⊢
      by_cases hc : c.clearsIn = 0
      · rw [if_pos hc]
      · rw [if_neg hc]
        exact hv

/-- C4 (amended): `socket_close` and `socket_disconnect` issue their
command and then perform exactly one read of `Sn_CR`, returning regardless
of its value (for a chip still busy, the register is still the command byte
at return); the poll-until-zero behaviour belongs to `_send_socket_cmd`
(used by connect and listen), which indeed only returns once a read gave 0. -/
theorem c4_close_returns_without_waiting (c0 : CmdChip) (hn : 0 < c0.clearsIn)
    (fuel : Nat) (c c2 : CmdChip) (h : sendSocketCmdLoop fuel c = some c2) :
    (socket_close c0).sncr = CMD_SOCK_CLOSE ∧
    (socket_disconnect c0).sncr = CMD_SOCK_DISCON ∧
    c2.sncr = 0 := by
  have h0 : ¬ c0.clearsIn = 0 := by omega
  refine ⟨?_, ?_, sendSocketCmdLoop_clears fuel c c2 h⟩
  · simp [socket_close, writeSncr, readSncr, h0]
  · simp [socket_disconnect, writeSncr, readSncr, h0]

/-- Concrete run of the C4 amended theorem: a chip needing two more polls,
and a two-poll `_send_socket_cmd` run that terminates with `Sn_CR = 0`. -/
theorem c4_close_returns_without_waiting_witness :
    0 < (⟨0, 2⟩ : CmdChip).clearsIn ∧
    sendSocketCmdLoop 2 ⟨CMD_SOCK_CLOSE, 0⟩ = some ⟨0, 0⟩ ∧
    ((socket_close ⟨0, 2⟩).sncr = CMD_SOCK_CLOSE ∧
     (socket_disconnect ⟨0, 2⟩).sncr = CMD_SOCK_DISCON ∧
     (⟨0, 0⟩ : CmdChip).sncr = 0) :=
  ⟨by decide, by decide,
   c4_close_returns_without_waiting ⟨0, 2⟩ (by decide) 2 ⟨CMD_SOCK_CLOSE, 0⟩ ⟨0, 0⟩
     (by decide)⟩

/-! ## C5 -/

/-- If the verify-retry loop reports success, the register holds the
written data at return. -/
theorem wvLoop_verified_read (addr data maxRetries : Nat) :
    ∀ (fuel retryCount : Nat) (c : RegChip) (w r : Nat),
      (wvLoop addr data maxRetries fuel retryCount c w r).verified = true →
      chipRead (wvLoop addr data maxRetries fuel retryCount c w r).chip addr = data := by
  intro fuel
  induction fuel with
  | zero =>
    intro rc c w r h
    simp [wvLoop] at h
  | succ n ih =>
    intro rc c w r h
    simp only [wvLoop] at h ⊢
    by_cases h1 : rc < maxRetries
    · rw [if_pos h1] at h ⊢
      by_cases h2 : rc < maxRetries - 1
      · rw [if_pos h2] at h ⊢
        by_cases h3 : chipRead (chipWrite c addr data) addr = data
        · rw [if_pos h3] at h ⊢
          exact h3
        · rw [if_neg h3] at h ⊢
          exact ih _ _ _ _ h
      · rw [if_neg h2] at h
        simp at h
    · rw [if_neg h1] at h
      simp at h

/-- The loop performs at most `fuel` write transactions beyond the `w`
already counted. -/
theorem wvLoop_writes_le (addr data maxRetries : Nat) :
    ∀ (fuel retryCount : Nat) (c : RegChip) (w r : Nat),
      (wvLoop addr data maxRetries fuel retryCount c w r).writes ≤ w + fuel := by
  intro fuel
  induction fuel with
  | zero =>
    intro rc c w r
    simp [wvLoop]
  | succ n ih =>
    intro rc c w r
    simp only [wvLoop]
    by_cases h1 : rc < maxRetries
    · rw [if_pos h1]
      by_cases h2 : rc < maxRetries - 1
      · rw [if_pos h2]
        by_cases h3 : chipRead (chipWrite c addr data) addr = data
        · rw [if_pos h3]
          simp
        · rw [if_neg h3]
          have h4 := ih (rc + 1) (chipWrite c addr data) (w + 1) (r + 1)
          omega
      · rw [if_neg h2]
        simp
    · rw [if_neg h1]
      simp

/-- On the success path every write attempt was followed by a verification
read: the two counters advance in lockstep. -/
theorem wvLoop_reads_eq_writes (addr data maxRetries : Nat) :
    ∀ (fuel retryCount : Nat) (c : RegChip) (w r : Nat),
      (wvLoop addr data maxRetries fuel retryCount c w r).verified = true →
      (wvLoop addr data maxRetries fuel retryCount c w r).reads + w =
        (wvLoop addr data maxRetries fuel retryCount c w r).writes + r := by
  intro fuel
  induction fuel with
  | zero =>
    intro rc c w r h
    simp [wvLoop] at h
  | succ n ih =>
    intro rc c w r h
    simp only [wvLoop] at h ⊢
    by_cases h1 : rc < maxRetries
    · rw [if_pos h1] at h ⊢
      by_cases h2 : rc < maxRetries - 1
      · rw [if_pos h2] at h ⊢
        by_cases h3 : chipRead (chipWrite c addr data) addr = data
        · rw [if_pos h3] at h ⊢
          simp
          omega
        · rw [if_neg h3] at h ⊢
          have h4 := ih (rc + 1) (chipWrite c addr data) (w + 1) (r + 1) h
          omega
      · rw [if_neg h2] at h
        simp at h
    · rw [if_neg h1] at h
      simp at h

/-- When all attempts fail, exactly `fuel` writes happen and every attempt
except the final one performed a verification read. -/
theorem wvLoop_failure_counts (addr data maxRetries : Nat) :
    ∀ (fuel retryCount : Nat) (c : RegChip) (w r : Nat),
      retryCount + fuel = maxRetries → 1 ≤ fuel →
      (wvLoop addr data maxRetries fuel retryCount c w r).verified = false →
      (wvLoop addr data maxRetries fuel retryCount c w r).writes = w + fuel ∧
      (wvLoop addr data maxRetries fuel retryCount c w r).reads = r + (fuel - 1) := by
  intro fuel
  induction fuel with
  | zero =>
    intro rc c w r hsum hf
    omega
  | succ n ih =>
    intro rc c w r hsum hf hv
    simp only [wvLoop] at hv ⊢
    have h1 : rc < maxRetries := by omega
    rw [if_pos h1] at hv ⊢
    by_cases h2 : rc < maxRetries - 1
    · rw [if_pos h2] at hv ⊢
      by_cases h3 : chipRead (chipWrite c addr data) addr = data
      · rw [if_pos h3] at hv
        simp at hv
      · rw [if_neg h3] at hv ⊢
        have hn1 : 1 ≤ n := by omega
        have h4 := ih (rc + 1) (chipWrite c addr data) (w + 1) (r + 1) (by omega) hn1 hv
        omega
    · rw [if_neg h2] at hv ⊢
      have hn0 : n = 0 := by omega
      subst hn0
      simp

/-- C5: a successful `_write_with_verification` leaves the register holding
`data`, so an immediately following read at the same address returns
`data`; at most `max_retries` write attempts are made; on success every
attempt carried a verification read, and on failure exactly
`max_retries - 1` verification reads happened — only the final attempt
skipped its verification read.  Quantified over every fault schedule the
chip can exhibit. -/
theorem c5_write_verified_correct (addr data maxRetries : Nat) (c : RegChip) :
    ((writeWithVerification addr data maxRetries c).verified = true →
      chipRead (writeWithVerification addr data maxRetries c).chip addr = data) ∧
    (writeWithVerification addr data maxRetries c).writes ≤ maxRetries ∧
    ((writeWithVerification addr data maxRetries c).verified = true →
      (writeWithVerification addr data maxRetries c).reads =
        (writeWithVerification addr data maxRetries c).writes) ∧
    ((writeWithVerification addr data maxRetries c).verified = false →
      1 ≤ maxRetries →
      (writeWithVerification addr data maxRetries c).writes = maxRetries ∧
      (writeWithVerification addr data maxRetries c).reads = maxRetries - 1) := by
  simp only [writeWithVerification]
  refine ⟨wvLoop_verified_read addr data maxRetries maxRetries 0 c 0 0, ?_, ?_, ?_⟩
  · have h := wvLoop_writes_le addr data maxRetries maxRetries 0 c 0 0
    omega
  · intro hv
    have h := wvLoop_reads_eq_writes addr data maxRetries maxRetries 0 c 0 0 hv
    omega
  · intro hv hm
    have h := wvLoop_failure_counts addr data maxRetries maxRetries 0 c 0 0 (by omega) hm hv
    omega

/-- Concrete run of the C5 theorem: a fault-free chip verifies the write of
192 to the source-IP register on the first attempt. -/
theorem c5_write_verified_witness :
    chipRead (writeWithVerification 0x000F 192 3 regChip0).chip 0x000F = 192 ∧
    (writeWithVerification 0x000F 192 3 regChip0).writes ≤ 3 :=
  ⟨(c5_write_verified_correct 0x000F 192 3 regChip0).1 rfl,
   (c5_write_verified_correct 0x000F 192 3 regChip0).2.1⟩

/-! ## C6 -/

/-- The scan starting at index `i` with `fuel` slots left returns, whenever
its result lies below `i + fuel`, an index whose status is `CLOSED` while
every index from `i` up to it is not `CLOSED`. -/
theorem getSocketGo_first_closed (status : Nat → Nat) :
    ∀ (fuel i : Nat), i + fuel ≤ 255 →
      getSocketGo status i fuel < i + fuel →
      (status (getSocketGo status i fuel) = SNSR_SOCK_CLOSED ∧
       ∀ j, i ≤ j → j < getSocketGo status i fuel →
         status j ≠ SNSR_SOCK_CLOSED) := by
  intro fuel
  induction fuel with
  | zero =>
    intro i hle h
    simp only [getSocketGo, SOCKET_INVALID] at h
    omega
  | succ n ih =>
    intro i hle h
    simp only [getSocketGo] at h ⊢
    by_cases hc : status i = SNSR_SOCK_CLOSED
    · rw [if_pos hc] at h ⊢
      exact ⟨hc, fun j hij hji => absurd hij (by omega)⟩
    · rw [if_neg hc] at h ⊢
      have h1 : getSocketGo status (i + 1) n < (i + 1) + n := by omega
      have h2 := ih (i + 1) (by omega) h1
      refine ⟨h2.1, ?_⟩
      intro j hij hji
      rcases Nat.eq_or_lt_of_le hij with heq | hlt
      · rw [← heq]
        exact hc
      · exact h2.2 j (by omega) hji

/-- C6: `get_socket` scans slot indices upward from 0; whenever it returns
a valid slot (below `max_sockets`), that slot's status read was `CLOSED`
and no lower-numbered slot's status was `CLOSED`. -/
theorem c6_get_socket_first_closed (status : Nat → Nat)
    (h : get_socket status < W5200_W5500_MAX_SOCK_NUM) :
    status (get_socket status) = SNSR_SOCK_CLOSED ∧
    ∀ j, j < get_socket status → status j ≠ SNSR_SOCK_CLOSED := by
  simp only [get_socket] at h ⊢
  have hle : 0 + W5200_W5500_MAX_SOCK_NUM ≤ 255 := by
    norm_num [W5200_W5500_MAX_SOCK_NUM]
  have h0 : getSocketGo status 0 W5200_W5500_MAX_SOCK_NUM <
      0 + W5200_W5500_MAX_SOCK_NUM := by omega
  obtain ⟨h1, h2⟩ := getSocketGo_first_closed status W5200_W5500_MAX_SOCK_NUM 0 hle h0
  exact ⟨h1, fun j hj => h2 j (Nat.zero_le j) hj⟩

/-- Concrete run of the C6 theorem: with slots 0 and 1 `ESTABLISHED` and
slot 2 the first `CLOSED` one, `get_socket` returns 2 and slot 1 was
indeed not `CLOSED`. -/
theorem c6_get_socket_witness :
    get_socket statusW < W5200_W5500_MAX_SOCK_NUM ∧
    statusW (get_socket statusW) = SNSR_SOCK_CLOSED ∧
    statusW 1 ≠ SNSR_SOCK_CLOSED :=
  ⟨by decide, (c6_get_socket_first_closed statusW (by decide)).1,
   (c6_get_socket_first_closed statusW (by decide)).2 1 (by decide)⟩

/-! ## C7 -/

/-- Folded `Sn_TX_WR` updates agree with the accumulated payload length
modulo the 2048-byte buffer size: the 16-bit pointer wrap never disturbs
the in-buffer offset. -/
theorem ptrAfterWrites_mod (p0 : Nat) (lens : List Nat) :
    ptrAfterWrites p0 lens % 2048 = (p0 + lens.sum) % 2048 := by
  induction lens generalizing p0 with
  | nil => simp [ptrAfterWrites]
  | cons l rest ih =>
    show ptrAfterWrites ((p0 + l) &&& 0xFFFF) rest % 2048 = _
    rw [ih, and_ffff_eq_mod, List.sum_cons]
    omega

/-- C7: every `socket_write` data transaction targets the address
`(Sn_TX_WR mod 2048) + (slot * 2048 + 0x8000)`, which lies inside the
slot's 2048-byte TX window `[slot_base, slot_base + 2048)`; the stored
pointer is `(Sn_TX_WR + len(buffer)) mod 65536`, and across repeated
writes the in-buffer offset is the accumulated length modulo 2048. -/
theorem c7_tx_buffer_address (socket_num : Nat) (_hs : socket_num < 8)
    (buffer : List Nat) (env : SockWriteEnv) (out : SockWriteOut)
    (h : socket_write socket_num buffer env = .ok (some out)) :
    out.txn.addr = env.ptr % 2048 + (socket_num * 2048 + 0x8000) ∧
    socket_num * 2048 + 0x8000 ≤ out.txn.addr ∧
    out.txn.addr < socket_num * 2048 + 0x8000 + 2048 ∧
    out.storedPtr = (env.ptr + buffer.length) % 65536 ∧
    ∀ (p0 : Nat) (lens : List Nat),
      ptrAfterWrites p0 lens % 2048 = (p0 + lens.sum) % 2048 := by
  have hout : out.txn.addr = (env.ptr &&& 0x07FF) + (socket_num * 2048 + 0x8000) ∧
      out.storedPtr = (env.ptr + buffer.length) &&& 0xFFFF := by
    simp only [socket_write] at h
    split at h
    · exact absurd h (by simp)
    · split at h
      · exact absurd h (by simp)
      · split at h
        · exact absurd h (by simp)
        · split at h
          · exact absurd h (by simp)
          · simp only [Except.ok.injEq, Option.some.injEq] at h
            subst h
            exact ⟨rfl, rfl⟩
          · simp only [Except.ok.injEq, Option.some.injEq] at h
            subst h
            exact ⟨rfl, rfl⟩
  obtain ⟨ha, hp⟩ := hout
  have hmod : env.ptr &&& 0x07FF = env.ptr % 2048 := and_7ff_eq_mod env.ptr
  have hlt : env.ptr % 2048 < 2048 := Nat.mod_lt _ (by norm_num)
  refine ⟨by rw [ha, hmod], ?_, ?_, by rw [hp, and_ffff_eq_mod], ptrAfterWrites_mod⟩
  · rw [ha, hmod]
    omega
  · rw [ha, hmod]
    omega

/-- Concrete run of the C7 theorem: slot 0, `Sn_TX_WR = 5000`, a 3-byte
payload; the transaction lands at `5000 mod 2048 + 0x8000 = 33672`. -/
theorem c7_tx_buffer_address_witness :
    0 < 8 ∧
    socket_write 0 [1, 2, 3] envC7 =
      .ok (some { ret := 3,
                  txn := { addr := (5000 &&& 0x07FF) + (0 * 2048 + 0x8000),
                           ctrl := 0x14 + (0 <<< 5), data := [1, 2, 3] },
                  storedPtr := 5003 }) ∧
    ({ ret := 3,
       txn := { addr := (5000 &&& 0x07FF) + (0 * 2048 + 0x8000),
                ctrl := 0x14 + (0 <<< 5), data := [1, 2, 3] },
       storedPtr := 5003 } : SockWriteOut).txn.addr =
      envC7.ptr % 2048 + (0 * 2048 + 0x8000) :=
  ⟨by decide, rfl,
   (c7_tx_buffer_address 0 (by decide) [1, 2, 3] envC7 _ rfl).1⟩

/-! ## C8 -/

/-- C8: `socket_open` on a slot whose status is outside the legal set
(in particular `ESTABLISHED`) returns the failure result 1 having read only
`PHYCFGR` (the link assert) and `Sn_SR` (the precondition check): no write
transaction is issued, so the chip state is untouched, and the `SRC_PORTS`
table is returned unchanged. -/
theorem c8_open_illegal_status_no_write (socket_num conn_mode : Nat)
    (env : OpenEnv) (hl : env.linkUp = true)
    (h : ¬ (env.snsr = SNSR_SOCK_CLOSED ∨ env.snsr = SNSR_SOCK_TIME_WAIT ∨
            env.snsr = SNSR_SOCK_FIN_WAIT ∨ env.snsr = SNSR_SOCK_CLOSE_WAIT ∨
            env.snsr = SNSR_SOCK_CLOSING ∨ env.snsr = SNSR_SOCK_UDP ∨
            env.snsr = SNSR_SOCK_LISTEN)) :
    socket_open socket_num conn_mode env =
      .ok (some { res := 1, srcPorts := env.srcPorts,
                  ops := [.rd REG_PHYCFGR, .rd REG_SNSR] }) ∧
    ∀ a v, BusOp.wr a v ∉ ([.rd REG_PHYCFGR, .rd REG_SNSR] : List BusOp) := by
  constructor
  · simp [socket_open, hl, h]
  · intro a v hmem
    simp at hmem

/-- Concrete run of the C8 theorem: an `ESTABLISHED` slot. -/
theorem c8_open_illegal_status_witness :
    envC8.linkUp = true ∧
    socket_open 0 SNMR_TCP envC8 =
      .ok (some { res := 1, srcPorts := envC8.srcPorts,
                  ops := [.rd REG_PHYCFGR, .rd REG_SNSR] }) :=
  ⟨rfl, (c8_open_illegal_status_no_write 0 SNMR_TCP envC8 rfl (by decide)).1⟩

/-! ## C9 -/

/-- C9: refuted as literally stated.  `connect` with the link down does
fail immediately with the link-down assertion, but it does not issue *zero*
bus transactions: evaluating `link_status` itself reads the `PHYCFGR`
register over the bus, so exactly one transaction is issued before the
failure. -/
theorem c9_counterexample :
    socket_connect 1 [10, 0, 0, 5] 80 SNMR_TCP envC9 =
      (.error "Ethernet cable disconnected!", [BusOp.rd REG_PHYCFGR]) ∧
    ([BusOp.rd REG_PHYCFGR] : List BusOp) ≠ [] := by
  exact ⟨rfl, by simp⟩

/-- C9 (amended): whenever the PHY link bit is clear, `socket_connect`
fails immediately with the link-down error after issuing exactly one bus
transaction — the `PHYCFGR` read that evaluates `link_status` — and in
particular no write transaction and no socket-register access. -/
theorem c9_link_down_fails_after_one_read (socket_num : Nat) (dest : List Nat)
    (port conn_mode : Nat) (env : ConnectEnv) (h : env.phycfgr &&& 0x01 = 0) :
    socket_connect socket_num dest port conn_mode env =
      (.error "Ethernet cable disconnected!", [BusOp.rd REG_PHYCFGR]) ∧
    ∀ a v, BusOp.wr a v ∉ ([BusOp.rd REG_PHYCFGR] : List BusOp) := by
  constructor
  · simp only [socket_connect]
    rw [if_pos h]
  · intro a v hmem
    simp at hmem

/-- Concrete run of the C9 amended theorem: `PHYCFGR = 0xB8` (link down). -/
theorem c9_link_down_witness :
    envC9w.phycfgr &&& 0x01 = 0 ∧
    socket_connect 0 [192, 168, 1, 1] 8080 SNMR_TCP envC9w =
      (.error "Ethernet cable disconnected!", [BusOp.rd REG_PHYCFGR]) :=
  ⟨by decide,
   (c9_link_down_fails_after_one_read 0 [192, 168, 1, 1] 8080 SNMR_TCP envC9w
     (by decide)).1⟩

/-! ## C10 -/

/-- C10: refuted.  Opening slot 0 records ephemeral port 50000 in
`SRC_PORTS`; reopening the same slot (after a close, which never touches
the table) overwrites the entry with the new draw 50001, removing 50000
from the exclusion set — and a later draw of 50000 is then accepted again,
so a closed socket's ephemeral port can be reused.  The exclusion set does
not grow monotonically. -/
theorem c10_counterexample :
    socket_open 0 SNMR_TCP envC10a = .ok (some outC10) ∧
    50000 ∈ outC10.srcPorts ∧
    socket_open 0 SNMR_TCP envC10b =
      .ok (some { res := 0, srcPorts := [50001, 0, 0, 0, 0, 0, 0, 0],
                  ops := [.rd REG_PHYCFGR, .rd REG_SNSR, .wr REG_SNMR SNMR_TCP,
                          .wr REG_SNIR 0xFF, .wr REG_SNPORT 195,
                          .wr (REG_SNPORT + 1) 81, .wr REG_SNCR CMD_SOCK_OPEN,
                          .rd REG_SNCR, .rd REG_SNSR] }) ∧
    50000 ∉ ([50001, 0, 0, 0, 0, 0, 0, 0] : List Nat) ∧
    socket_open 0 SNMR_TCP envC10c =
      .ok (some { res := 0, srcPorts := [50000, 0, 0, 0, 0, 0, 0, 0],
                  ops := [.rd REG_PHYCFGR, .rd REG_SNSR, .wr REG_SNMR SNMR_TCP,
                          .wr REG_SNIR 0xFF, .wr REG_SNPORT 195,
                          .wr (REG_SNPORT + 1) 80, .wr REG_SNCR CMD_SOCK_OPEN,
                          .rd REG_SNCR, .rd REG_SNSR] }) := by
  refine ⟨rfl, by decide, rfl, by decide, rfl⟩

/-- C10 (amended): `socket_close`/`socket_disconnect` never modify the
source-port table (their embedding acts on the command register alone),
but a `socket_open` that allocates an ephemeral port stores it by
overwriting that slot's `SRC_PORTS` entry: the table holds only the latest
port per slot, so the previously recorded port is removed from the
exclusion set and may be allocated again later. -/
theorem c10_ephemeral_port_overwrites_slot (socket_num conn_mode : Nat)
    (env : OpenEnv) (o : OpenOut) (p : Nat)
    (hattr : env.srcPortAttr = 0)
    (hpick : pickEphemeral env.srcPorts env.rng = some p)
    (h : socket_open socket_num conn_mode env = .ok (some o))
    (hres : o.res = 0) :
    o.srcPorts = env.srcPorts.set socket_num p := by
  simp only [socket_open] at h
  split at h
  · exact absurd h (by simp)
  · split at h
    · rw [if_neg (by omega : ¬ env.srcPortAttr > 0)] at h
      rw [hpick] at h
      simp only [socketOpenFinish] at h
      split at h
      · simp only [Except.ok.injEq, Option.some.injEq] at h
        subst h
        rfl
      · split at h
        · simp only [Except.ok.injEq, Option.some.injEq] at h
          subst h
          rfl
        · exact absurd h (by simp)
    · simp only [Except.ok.injEq, Option.some.injEq] at h
      subst h
      simp at hres

/-- Concrete run of the C10 amended theorem: the reopened slot 0 ends up
with its table entry replaced by the fresh draw. -/
theorem c10_ephemeral_port_overwrites_slot_witness :
    envC10a.srcPortAttr = 0 ∧
    pickEphemeral envC10a.srcPorts envC10a.rng = some 50000 ∧
    socket_open 0 SNMR_TCP envC10a = .ok (some outC10) ∧
    outC10.res = 0 ∧
    outC10.srcPorts = envC10a.srcPorts.set 0 50000 :=
  ⟨rfl, rfl, rfl, rfl,
   c10_ephemeral_port_overwrites_slot 0 SNMR_TCP envC10a outC10 50000 rfl rfl rfl rfl⟩

end Wiznet5k
